import Mathlib

/-!
# Traffic-light state machine (`src/main.c`)

A shallow embedding of the button handlers, the LED helpers and the four
LED worker loops of `src/main.c`, followed by theorems about them.

Modelling conventions
* `State` is the C `enum State`; `global_state` and the function-static
  `prev_state` of `button_0_handler` are fields of `Mem`.
* The three LED pins hold one logical level each (`Bool`); `gpio_pin_get_dt`
  reads a level as the integer 0 or 1, `gpio_pin_set_dt` writes the level
  `value != 0`, `gpio_pin_toggle_dt` inverts it.  Driver errors are not
  modelled.
* Each worker loop is split at its `k_sleep`: the part of the loop body before
  the sleep (`*_activate`) and the part after it (`*_wake`).  A handler or one
  of these two parts is one atomic step of the interleaved system `Sys`.
-/

namespace TrafficLight

/-! ## Data model -/

/-- The C `enum State`. -/
inductive State where
  | RED
  | YELLOW
  | GREEN
  | PAUSE
  | BLINK
  deriving DecidableEq, Repr

def NUM_BUTTONS : Nat := 5

def LED_RED : Nat := 2
def LED_YELLOW : Nat := 3
def LED_GREEN : Nat := 1

/-- The members of the `leds` union: `leds.red`, `leds.green`, `leds.blue`. -/
inductive Pin where
  | red
  | green
  | blue
  deriving DecidableEq, Repr

/-- Logical output level of the three LED pins. -/
structure Leds where
  red : Bool
  green : Bool
  blue : Bool
  deriving DecidableEq, Repr

/-- The memory the handlers and workers share: `global_state`, the static
`prev_state` of `button_0_handler`, and the LED pin levels. -/
structure Mem where
  global_state : State
  prev_state : State
  leds : Leds
  deriving DecidableEq, Repr

/-! ## GPIO primitives -/

/-- The array view `leds.array` of the union: red, green, blue in this order. -/
def leds_array : List Pin := [Pin.red, Pin.green, Pin.blue]

/-- Reading a pin gives the integer 1 when it is on and 0 when it is off. -/
def gpio_pin_get_dt (l : Leds) (p : Pin) : Nat :=
  match p with
  | Pin.red => if l.red then 1 else 0
  | Pin.green => if l.green then 1 else 0
  | Pin.blue => if l.blue then 1 else 0

/-- Writing a pin: the pin is on exactly when `value` is not zero. -/
def gpio_pin_set_dt (l : Leds) (p : Pin) (value : Nat) : Leds :=
  match p with
  | Pin.red => { l with red := decide (value ≠ 0) }
  | Pin.green => { l with green := decide (value ≠ 0) }
  | Pin.blue => { l with blue := decide (value ≠ 0) }

/-- Toggling a pin inverts its level. -/
def gpio_pin_toggle_dt (l : Leds) (p : Pin) : Leds :=
  match p with
  | Pin.red => { l with red := !l.red }
  | Pin.green => { l with green := !l.green }
  | Pin.blue => { l with blue := !l.blue }

/-! ## LED helpers -/

/-- The loop of `reset_leds`: every entry of `leds.array` is set to 0. -/
def reset_leds (l : Leds) : Leds :=
  leds_array.foldl (fun acc p => gpio_pin_set_dt acc p 0) l

/-- Source: `(gpio_pin_get_dt(&leds.red) << 1) | gpio_pin_get_dt(&leds.green)`. -/
def get_current_led_state (l : Leds) : Nat :=
  (gpio_pin_get_dt l Pin.red <<< 1) ||| gpio_pin_get_dt l Pin.green

/-! ## Button handlers -/

def button_0_handler (m : Mem) : Mem :=
  if m.global_state ≠ State.PAUSE then
    { m with prev_state := m.global_state, global_state := State.PAUSE }
  else
    { m with global_state := if m.prev_state = State.BLINK then State.RED else m.prev_state }

def button_1_handler (m : Mem) : Mem :=
  if m.global_state ≠ State.PAUSE then m
  else
    let l := if get_current_led_state m.leds ≠ LED_RED then reset_leds m.leds else m.leds
    { m with leds := gpio_pin_toggle_dt l Pin.red }

def button_2_handler (m : Mem) : Mem :=
  if m.global_state ≠ State.PAUSE then m
  else
    let l := if get_current_led_state m.leds ≠ LED_YELLOW then reset_leds m.leds else m.leds
    { m with leds := gpio_pin_toggle_dt (gpio_pin_toggle_dt l Pin.red) Pin.green }

def button_3_handler (m : Mem) : Mem :=
  if m.global_state ≠ State.PAUSE then m
  else
    let l := if get_current_led_state m.leds ≠ LED_GREEN then reset_leds m.leds else m.leds
    { m with leds := gpio_pin_toggle_dt l Pin.green }

def button_4_handler (m : Mem) : Mem :=
  let m1 : Mem :=
    { m with global_state := if m.global_state = State.BLINK then State.PAUSE else State.BLINK }
  if m1.global_state ≠ State.BLINK then { m1 with leds := reset_leds m1.leds } else m1

/-- The table `button_handlers[NUM_BUTTONS]`. -/
def button_handlers (i : Fin 5) : Mem → Mem :=
  match i with
  | 0 => button_0_handler
  | 1 => button_1_handler
  | 2 => button_2_handler
  | 3 => button_3_handler
  | 4 => button_4_handler

/-! ## Worker loops, split at `k_sleep` -/

/-- Body of `red_led_task` from the passed guard up to `k_sleep`. -/
def red_led_task_activate (m : Mem) : Mem :=
  { m with leds := gpio_pin_set_dt (reset_leds m.leds) Pin.red 1 }

/-- Body of `red_led_task` after `k_sleep`. -/
def red_led_task_wake (m : Mem) : Mem :=
  if m.global_state ≠ State.PAUSE ∧ m.global_state ≠ State.BLINK then
    { m with global_state := State.YELLOW }
  else m

/-- Body of `yellow_led_task` from the passed guard up to `k_sleep`. -/
def yellow_led_task_activate (m : Mem) : Mem :=
  { m with leds := gpio_pin_set_dt (gpio_pin_set_dt (reset_leds m.leds) Pin.red 1) Pin.green 1 }

/-- Body of `yellow_led_task` after `k_sleep`. -/
def yellow_led_task_wake (m : Mem) : Mem :=
  if m.global_state ≠ State.PAUSE ∧ m.global_state ≠ State.BLINK then
    { m with global_state := State.GREEN }
  else m

/-- Body of `green_led_task` from the passed guard up to `k_sleep`. -/
def green_led_task_activate (m : Mem) : Mem :=
  { m with leds := gpio_pin_set_dt (reset_leds m.leds) Pin.green 1 }

/-- Body of `green_led_task` after `k_sleep`. -/
def green_led_task_wake (m : Mem) : Mem :=
  if m.global_state ≠ State.PAUSE ∧ m.global_state ≠ State.BLINK then
    { m with global_state := State.RED }
  else m

/-- Body of `blink_task` from the passed guard up to `k_sleep`. -/
def blink_task_activate (m : Mem) : Mem :=
  if get_current_led_state m.leds = LED_YELLOW then
    { m with leds := reset_leds m.leds }
  else
    { m with leds := gpio_pin_set_dt (gpio_pin_set_dt m.leds Pin.red 1) Pin.green 1 }

/-- Nothing follows `k_sleep` in the loop body of `blink_task`. -/
def blink_task_wake (m : Mem) : Mem := m

/-- The four worker threads. -/
inductive Task where
  | red
  | yellow
  | green
  | blink
  deriving DecidableEq, Repr

/-- The value of `global_state` a worker's guard waits for. -/
def Task.phase : Task → State
  | Task.red => State.RED
  | Task.yellow => State.YELLOW
  | Task.green => State.GREEN
  | Task.blink => State.BLINK

def Task.activate : Task → Mem → Mem
  | Task.red => red_led_task_activate
  | Task.yellow => yellow_led_task_activate
  | Task.green => green_led_task_activate
  | Task.blink => blink_task_activate

def Task.wake : Task → Mem → Mem
  | Task.red => red_led_task_wake
  | Task.yellow => yellow_led_task_wake
  | Task.green => green_led_task_wake
  | Task.blink => blink_task_wake

/-! ## The interleaved system -/

/-- Shared memory plus, for each worker, whether it is inside `k_sleep`. -/
structure Sys where
  mem : Mem
  red_asleep : Bool
  yellow_asleep : Bool
  green_asleep : Bool
  blink_asleep : Bool
  deriving DecidableEq, Repr

def Sys.asleep (s : Sys) : Task → Bool
  | Task.red => s.red_asleep
  | Task.yellow => s.yellow_asleep
  | Task.green => s.green_asleep
  | Task.blink => s.blink_asleep

def Sys.setAsleep (s : Sys) (t : Task) (b : Bool) : Sys :=
  match t with
  | Task.red => { s with red_asleep := b }
  | Task.yellow => { s with yellow_asleep := b }
  | Task.green => { s with green_asleep := b }
  | Task.blink => { s with blink_asleep := b }

/-- One atomic step: a button interrupt, a worker passing its guard and running
up to `k_sleep`, or a worker returning from `k_sleep`. -/
inductive Event where
  | button (i : Fin 5)
  | activate (t : Task)
  | wake (t : Task)
  deriving DecidableEq, Repr

/-- A worker activates only when it is not asleep and `global_state` is its
phase; it wakes only when it is asleep.  A button handler can always run. -/
def step (s : Sys) : Event → Option Sys
  | Event.button i => some { s with mem := button_handlers i s.mem }
  | Event.activate t =>
    if s.asleep t = false ∧ s.mem.global_state = t.phase then
      some (({ s with mem := t.activate s.mem } : Sys).setAsleep t true)
    else none
  | Event.wake t =>
    if s.asleep t = true then
      some (({ s with mem := t.wake s.mem } : Sys).setAsleep t false)
    else none

def run (s : Sys) : List Event → Option Sys
  | [] => some s
  | e :: es => (step s e).bind (fun s1 => run s1 es)

/-- All LEDs off, as `init_leds` leaves them. -/
def leds_off : Leds := { red := false, green := false, blue := false }

/-- Memory at start: `global_state = RED`, `prev_state = RED`, LEDs off. -/
def init_mem : Mem :=
  { global_state := State.RED, prev_state := State.RED, leds := leds_off }

def init_sys : Sys :=
  { mem := init_mem, red_asleep := false, yellow_asleep := false,
    green_asleep := false, blink_asleep := false }

def Reachable (s : Sys) : Prop := ∃ es : List Event, run init_sys es = some s

/-- One unit of time without input events: the worker whose phase is the
current `global_state` activates, sleeps and wakes with no step in between. -/
def time_unit (m : Mem) : Mem :=
  match m.global_state with
  | State.RED => red_led_task_wake (red_led_task_activate m)
  | State.YELLOW => yellow_led_task_wake (yellow_led_task_activate m)
  | State.GREEN => green_led_task_wake (green_led_task_activate m)
  | State.BLINK => blink_task_wake (blink_task_activate m)
  | State.PAUSE => m

def after_units : Nat → Mem → Mem
  | 0, m => m
  | n + 1, m => after_units n (time_unit m)

/-! ## The three forced colours -/

/-- The colours buttons 1, 2 and 3 toggle. -/
inductive Colour where
  | red
  | yellow
  | green
  deriving DecidableEq, Repr

/-- The constant the handler compares `get_current_led_state()` with. -/
def Colour.code : Colour → Nat
  | Colour.red => LED_RED
  | Colour.yellow => LED_YELLOW
  | Colour.green => LED_GREEN

/-- The handler bound to the colour: buttons 1, 2, 3. -/
def Colour.handler : Colour → Mem → Mem
  | Colour.red => button_handlers 1
  | Colour.yellow => button_handlers 2
  | Colour.green => button_handlers 3

/-- Pin levels with exactly the colour lit and every other channel off. -/
def Colour.lit : Colour → Leds
  | Colour.red => { red := true, green := false, blue := false }
  | Colour.yellow => { red := true, green := true, blue := false }
  | Colour.green => { red := false, green := true, blue := false }

/-- Paused memory with all LEDs off. -/
def paused_dark : Mem :=
  { global_state := State.PAUSE, prev_state := State.RED, leds := leds_off }

/-- Memory in blink mode, LEDs off. -/
def blinking_mem : Mem :=
  { global_state := State.BLINK, prev_state := State.RED, leds := leds_off }

/-- The constant a worker writes to `global_state` after its sleep when it
finds the mode neither PAUSE nor BLINK; `blink_task` writes none. -/
def Task.target : Task → Option State
  | Task.red => some State.YELLOW
  | Task.yellow => some State.GREEN
  | Task.green => some State.RED
  | Task.blink => none

/-- From the start: the red worker completes, button 0 pauses in YELLOW, and
button 4 enters blink mode. -/
def blink_after_yellow_pause : Sys :=
  { mem := { global_state := State.BLINK, prev_state := State.YELLOW,
             leds := { red := true, green := false, blue := false } },
    red_asleep := false, yellow_asleep := false, green_asleep := false,
    blink_asleep := false }

/-- From the start: the red worker completes, the yellow worker goes to sleep,
then buttons 4, 4, 0 are pressed before it wakes. -/
def yellow_diverted_to_red : Sys :=
  { mem := { global_state := State.RED, prev_state := State.RED, leds := leds_off },
    red_asleep := false, yellow_asleep := true, green_asleep := false,
    blink_asleep := false }

/-- From the start: button 4 enters blink mode. -/
def blink_from_start : Sys :=
  { mem := { global_state := State.BLINK, prev_state := State.RED, leds := leds_off },
    red_asleep := false, yellow_asleep := false, green_asleep := false,
    blink_asleep := false }

/-- From the start: the red worker goes to sleep and button 0 is pressed. -/
def red_paused_asleep : Sys :=
  { mem := { global_state := State.PAUSE, prev_state := State.RED,
             leds := { red := true, green := false, blue := false } },
    red_asleep := true, yellow_asleep := false, green_asleep := false,
    blink_asleep := false }

/-- The handlers for a list of button presses, applied in order. -/
def press : List (Fin 5) → Mem → Mem
  | [], m => m
  | i :: is, m => press is (button_handlers i m)

/-- From the start: button 0 is pressed once. -/
def paused_from_start : Sys :=
  { mem := { global_state := State.PAUSE, prev_state := State.RED, leds := leds_off },
    red_asleep := false, yellow_asleep := false, green_asleep := false,
    blink_asleep := false }

/-- From the start: the red worker goes to sleep. -/
def red_active : Sys :=
  { mem := { global_state := State.RED, prev_state := State.RED,
             leds := { red := true, green := false, blue := false } },
    red_asleep := true, yellow_asleep := false, green_asleep := false,
    blink_asleep := false }

/-- From the start: the red worker goes to sleep and button 4 enters blink
mode. -/
def blink_entered_red_lit : Sys :=
  { mem := { global_state := State.BLINK, prev_state := State.RED,
             leds := { red := true, green := false, blue := false } },
    red_asleep := true, yellow_asleep := false, green_asleep := false,
    blink_asleep := false }

/-- Number of workers inside their active body, between activation and the end
of `k_sleep`. -/
def Sys.activeCount (s : Sys) : Nat :=
  ([Task.red, Task.yellow, Task.green, Task.blink].filter (fun t => s.asleep t)).length

/-- From the start: the red worker completes, the yellow worker goes to sleep,
buttons 4, 4, 0 bring the mode back to RED, and the red worker activates. -/
def red_yellow_active : Sys :=
  { mem := { global_state := State.RED, prev_state := State.RED,
             leds := { red := true, green := false, blue := false } },
    red_asleep := true, yellow_asleep := true, green_asleep := false,
    blink_asleep := false }

/-- From the start: the red worker completes and the yellow worker goes to
sleep. -/
def yellow_active : Sys :=
  { mem := { global_state := State.YELLOW, prev_state := State.RED,
             leds := { red := true, green := true, blue := false } },
    red_asleep := false, yellow_asleep := true, green_asleep := false,
    blink_asleep := false }

/-! ## Helper lemmas -/

theorem reset_leds_eq (l : Leds) : reset_leds l = leds_off := by
  cases l
  simp [reset_leds, leds_array, gpio_pin_set_dt, leds_off]

/-! ## Button 0: pause and resume -/

/-- C1: in every state `button_0_handler` does the following: when the mode is not
PAUSE, the saved mode becomes the current mode and the mode becomes PAUSE;
otherwise the mode becomes RED when the saved mode is BLINK and the saved mode
otherwise, and the saved mode stays as it was. -/
theorem button_0_handler_spec (m : Mem) :
    (m.global_state ≠ State.PAUSE →
      (button_handlers 0 m).prev_state = m.global_state ∧
      (button_handlers 0 m).global_state = State.PAUSE) ∧
    (m.global_state = State.PAUSE →
      (button_handlers 0 m).global_state =
        (if m.prev_state = State.BLINK then State.RED else m.prev_state) ∧
      (button_handlers 0 m).prev_state = m.prev_state) := by
  constructor
  · intro h
    simp [button_handlers, button_0_handler, h]
  · intro h
    simp [button_handlers, button_0_handler, h]

/-- Witness for C1: both branches at concrete states. -/
theorem button_0_handler_spec_witness :
    ((button_handlers 0 init_mem).prev_state = State.RED ∧
      (button_handlers 0 init_mem).global_state = State.PAUSE) ∧
    ((button_handlers 0 paused_dark).global_state = State.RED ∧
      (button_handlers 0 paused_dark).prev_state = State.RED) :=
  ⟨(button_0_handler_spec init_mem).1 (by decide),
   (button_0_handler_spec paused_dark).2 (by decide)⟩

/-- C2, counterexample: from BLINK, pressing button 0 twice ends in RED, so the
mode before the pause is not restored. -/
theorem pause_twice_from_blink_not_restored :
    blinking_mem.global_state ≠ State.PAUSE ∧
    (button_handlers 0 (button_handlers 0 blinking_mem)).global_state = State.RED ∧
    (button_handlers 0 (button_handlers 0 blinking_mem)).global_state
      ≠ blinking_mem.global_state := by
  decide

/-- C2, amended: for every state whose mode is neither PAUSE nor BLINK, pressing
button 0 twice restores the mode; from BLINK the two presses end in RED. -/
theorem pause_twice_restores (m : Mem) (h : m.global_state ≠ State.PAUSE) :
    (button_handlers 0 (button_handlers 0 m)).global_state =
      (if m.global_state = State.BLINK then State.RED else m.global_state) := by
  simp [button_handlers, button_0_handler, h]

/-- Witness for C2 amended, at the initial memory. -/
theorem pause_twice_restores_witness :
    init_mem.global_state ≠ State.PAUSE ∧
    (button_handlers 0 (button_handlers 0 init_mem)).global_state =
      (if init_mem.global_state = State.BLINK then State.RED else init_mem.global_state) :=
  ⟨by decide, pause_twice_restores init_mem (by decide)⟩

/-- C3, counterexample: from the initial RED state, button 4 then button 0 leaves
the mode PAUSE, not RED. -/
theorem blink_then_pause_not_red :
    init_mem.global_state = State.RED ∧
    (button_handlers 0 (button_handlers 4 init_mem)).global_state = State.PAUSE ∧
    (button_handlers 0 (button_handlers 4 init_mem)).global_state ≠ State.RED := by
  decide

/-- C3, amended: from mode RED, button 4 then button 0 once leaves the mode PAUSE
with saved mode BLINK; a second press of button 0 then gives RED. -/
theorem blink_then_pause (m : Mem) (h : m.global_state = State.RED) :
    (button_handlers 0 (button_handlers 4 m)).global_state = State.PAUSE ∧
    (button_handlers 0 (button_handlers 4 m)).prev_state = State.BLINK ∧
    (button_handlers 0 (button_handlers 0 (button_handlers 4 m))).global_state
      = State.RED := by
  simp [button_handlers, button_0_handler, button_4_handler, h]

/-- Witness for C3 amended, at the initial memory. -/
theorem blink_then_pause_witness :
    init_mem.global_state = State.RED ∧
    (button_handlers 0 (button_handlers 4 init_mem)).global_state = State.PAUSE ∧
    (button_handlers 0 (button_handlers 4 init_mem)).prev_state = State.BLINK ∧
    (button_handlers 0 (button_handlers 0 (button_handlers 4 init_mem))).global_state
      = State.RED :=
  ⟨by decide, blink_then_pause init_mem (by decide)⟩

/-- C4, counterexample: after pause, force-green, pause from the initial state
the mode is RED but the green LED is on, so the outputs are not all off. -/
theorem pause_green_pause_not_dark :
    (press [0, 3, 0] init_mem).global_state = State.RED ∧
    (press [0, 3, 0] init_mem).leds.green = true ∧
    (press [0, 3, 0] init_mem).leds ≠ leds_off := by
  decide

/-- C4, amended: from mode RED, saved mode RED and all outputs off, the presses
pause, force-green, pause end in mode RED with exactly the green LED on. -/
theorem pause_green_pause :
    (press [0, 3, 0] init_mem).global_state = State.RED ∧
    (press [0, 3, 0] init_mem).leds = { red := false, green := true, blue := false } := by
  decide

/-! ## Buttons 1 to 3: forced colours -/

/-- C5: outside PAUSE each of the handlers of buttons 1, 2 and 3 leaves the mode,
the saved mode and the three outputs as they were. -/
theorem force_colour_noop_outside_pause (c : Colour) (m : Mem)
    (h : m.global_state ≠ State.PAUSE) : c.handler m = m := by
  cases c <;>
    simp [Colour.handler, button_handlers, button_1_handler, button_2_handler,
      button_3_handler, h]

/-- Witness for C5: force red in the initial RED state. -/
theorem force_colour_noop_outside_pause_witness :
    init_mem.global_state ≠ State.PAUSE ∧ Colour.red.handler init_mem = init_mem :=
  ⟨by decide, force_colour_noop_outside_pause Colour.red init_mem (by decide)⟩

/-! ## Button 4: blink toggle -/

/-- C7: in every state `button_4_handler` sets the mode to PAUSE when it was BLINK
and to BLINK otherwise; when the new mode is not BLINK all outputs are off,
when it is BLINK the outputs are unchanged; the saved mode is unchanged. -/
theorem button_4_handler_spec (m : Mem) :
    (button_handlers 4 m).global_state =
      (if m.global_state = State.BLINK then State.PAUSE else State.BLINK) ∧
    (button_handlers 4 m).leds =
      (if (button_handlers 4 m).global_state ≠ State.BLINK then leds_off else m.leds) ∧
    (button_handlers 4 m).prev_state = m.prev_state := by
  by_cases h : m.global_state = State.BLINK <;>
    simp [button_handlers, button_4_handler, h, reset_leds_eq]

/-! ## Workers -/

theorem setAsleep_mem (s : Sys) (t : Task) (b : Bool) : (s.setAsleep t b).mem = s.mem := by
  cases t <;> rfl

theorem time_unit_cycle (m : Mem) :
    (m.global_state = State.RED → (time_unit m).global_state = State.YELLOW) ∧
    (m.global_state = State.YELLOW → (time_unit m).global_state = State.GREEN) ∧
    (m.global_state = State.GREEN → (time_unit m).global_state = State.RED) := by
  refine ⟨?_, ?_, ?_⟩ <;> intro h
  · simp [time_unit, h, red_led_task_wake, red_led_task_activate]
  · simp [time_unit, h, yellow_led_task_wake, yellow_led_task_activate]
  · simp [time_unit, h, green_led_task_wake, green_led_task_activate]

/-- In the interleaved system one unit of time is the owning worker's activation
followed directly by its wake-up. -/
theorem time_unit_as_run (s : Sys) (t : Task) (ha : s.asleep t = false)
    (hm : s.mem.global_state = t.phase) :
    run s [Event.activate t, Event.wake t] = some { s with mem := time_unit s.mem } := by
  obtain ⟨m, r, y, g, b⟩ := s
  cases t <;> simp only [Sys.asleep] at ha <;> simp only [Task.phase] at hm <;> subst ha <;>
    simp [run, step, Sys.asleep, Sys.setAsleep, Task.phase, Task.activate, Task.wake,
      time_unit, hm, red_led_task_activate, yellow_led_task_activate,
      green_led_task_activate, blink_task_activate]

theorem after_units_add (a b : Nat) (m : Mem) :
    after_units (a + b) m = after_units b (after_units a m) := by
  induction a generalizing m with
  | zero => simp [after_units]
  | succ k ih =>
    have e : k + 1 + b = (k + b) + 1 := by omega
    rw [e]
    simp [after_units, ih]

theorem after_units_three (m : Mem)
    (h : m.global_state = State.RED ∨ m.global_state = State.YELLOW ∨
      m.global_state = State.GREEN) :
    (after_units 3 m).global_state = m.global_state := by
  simp only [after_units]
  rcases h with h | h | h
  · have h1 := (time_unit_cycle m).1 h
    have h2 := (time_unit_cycle _).2.1 h1
    have h3 := (time_unit_cycle _).2.2 h2
    rw [h3, h]
  · have h1 := (time_unit_cycle m).2.1 h
    have h2 := (time_unit_cycle _).2.2 h1
    have h3 := (time_unit_cycle _).1 h2
    rw [h3, h]
  · have h1 := (time_unit_cycle m).2.2 h
    have h2 := (time_unit_cycle _).1 h1
    have h3 := (time_unit_cycle _).2.1 h2
    rw [h3, h]

theorem time_unit_stays_in_cycle (m : Mem)
    (h : m.global_state = State.RED ∨ m.global_state = State.YELLOW ∨
      m.global_state = State.GREEN) :
    (time_unit m).global_state = State.RED ∨ (time_unit m).global_state = State.YELLOW ∨
      (time_unit m).global_state = State.GREEN := by
  rcases h with h | h | h
  · exact Or.inr (Or.inl ((time_unit_cycle m).1 h))
  · exact Or.inr (Or.inr ((time_unit_cycle m).2.1 h))
  · exact Or.inl ((time_unit_cycle m).2.2 h)

theorem after_units_stays_in_cycle (n : Nat) (m : Mem)
    (h : m.global_state = State.RED ∨ m.global_state = State.YELLOW ∨
      m.global_state = State.GREEN) :
    (after_units n m).global_state = State.RED ∨
      (after_units n m).global_state = State.YELLOW ∨
      (after_units n m).global_state = State.GREEN := by
  induction n generalizing m with
  | zero => simpa [after_units] using h
  | succ k ih =>
    simp only [after_units]
    exact ih _ (time_unit_stays_in_cycle m h)

/-- C8: starting in mode RED with no input events, the mode is YELLOW after one
unit of time, GREEN after two, RED after three, and for every n the mode
after n+3 units is the mode after n units. -/
theorem auto_cycle (m : Mem) (h : m.global_state = State.RED) :
    (after_units 1 m).global_state = State.YELLOW ∧
    (after_units 2 m).global_state = State.GREEN ∧
    (after_units 3 m).global_state = State.RED ∧
    ∀ n : Nat, (after_units (n + 3) m).global_state = (after_units n m).global_state := by
  have h1 := (time_unit_cycle m).1 h
  have h2 := (time_unit_cycle _).2.1 h1
  have h3 := (time_unit_cycle _).2.2 h2
  refine ⟨by simpa [after_units] using h1, by simpa [after_units] using h2,
    by simpa [after_units] using h3, ?_⟩
  intro n
  rw [after_units_add]
  exact after_units_three _ (after_units_stays_in_cycle n m (Or.inl h))

/-- Witness for C8, at the initial memory. -/
theorem auto_cycle_witness :
    init_mem.global_state = State.RED ∧
    (after_units 1 init_mem).global_state = State.YELLOW ∧
    (after_units 2 init_mem).global_state = State.GREEN ∧
    (after_units 3 init_mem).global_state = State.RED ∧
    ∀ n : Nat, (after_units (n + 3) init_mem).global_state
      = (after_units n init_mem).global_state :=
  ⟨rfl, auto_cycle init_mem rfl⟩

/-! ## Reachable states -/

theorem step_prev_state (s s1 : Sys) (e : Event) (h : step s e = some s1)
    (hp : s.mem.prev_state ≠ State.PAUSE) : s1.mem.prev_state ≠ State.PAUSE := by
  cases e with
  | button i =>
    simp only [step, Option.some.injEq] at h
    subst h
    by_cases hg : s.mem.global_state = State.PAUSE
    · fin_cases i <;>
        simp [button_handlers, button_0_handler, button_1_handler, button_2_handler,
          button_3_handler, button_4_handler, hg, hp]
    · fin_cases i <;>
        simp [button_handlers, button_0_handler, button_1_handler, button_2_handler,
          button_3_handler, button_4_handler, hg, hp]
      split <;> simpa using hp
  | activate t =>
    simp only [step] at h
    split at h
    · simp only [Option.some.injEq] at h
      subst h
      rw [setAsleep_mem]
      cases t <;>
        simp [Task.activate, red_led_task_activate, yellow_led_task_activate,
          green_led_task_activate, blink_task_activate, hp]
      split <;> simpa using hp
    · simp at h
  | wake t =>
    simp only [step] at h
    split at h
    · simp only [Option.some.injEq] at h
      subst h
      rw [setAsleep_mem]
      cases t <;>
        simp only [Task.wake, red_led_task_wake, yellow_led_task_wake,
          green_led_task_wake, blink_task_wake] <;>
        first
          | exact hp
          | (split <;> simpa using hp)
    · simp at h

theorem run_prev_state (es : List Event) (s s1 : Sys) (h : run s es = some s1)
    (hp : s.mem.prev_state ≠ State.PAUSE) : s1.mem.prev_state ≠ State.PAUSE := by
  induction es generalizing s with
  | nil =>
    simp only [run, Option.some.injEq] at h
    subst h
    exact hp
  | cons e es ih =>
    simp only [run] at h
    cases hs : step s e with
    | none => simp [hs] at h
    | some s2 =>
      rw [hs] at h
      exact ih s2 h (step_prev_state s s2 e hs hp)

theorem reachable_prev_state (s : Sys) (h : Reachable s) :
    s.mem.prev_state ≠ State.PAUSE := by
  obtain ⟨es, hes⟩ := h
  exact run_prev_state es init_sys s hes (by decide)

/-- C9, counterexample: a reachable state in mode BLINK with saved mode YELLOW;
button 4 takes it to PAUSE and button 0 then resumes to YELLOW, not RED. -/
theorem blink_pause_resume_not_red :
    Reachable blink_after_yellow_pause ∧
    blink_after_yellow_pause.mem.global_state = State.BLINK ∧
    (button_handlers 4 blink_after_yellow_pause.mem).global_state = State.PAUSE ∧
    (button_handlers 0 (button_handlers 4 blink_after_yellow_pause.mem)).global_state
      = State.YELLOW :=
  ⟨⟨[Event.activate Task.red, Event.wake Task.red, Event.button 0, Event.button 4],
    by decide⟩, by decide, by decide, by decide⟩

/-- C9, amended: for every reachable state in mode BLINK, both button 0 and
button 4 lead to PAUSE; after button 0 a further button 0 gives RED; after
button 4 a further button 0 gives the saved mode when that is YELLOW or GREEN
and RED otherwise. -/
theorem blink_pause_resume (s : Sys) (hr : Reachable s)
    (hb : s.mem.global_state = State.BLINK) :
    (button_handlers 0 s.mem).global_state = State.PAUSE ∧
    (button_handlers 4 s.mem).global_state = State.PAUSE ∧
    (button_handlers 0 (button_handlers 0 s.mem)).global_state = State.RED ∧
    (button_handlers 0 (button_handlers 4 s.mem)).global_state =
      (if s.mem.prev_state = State.YELLOW ∨ s.mem.prev_state = State.GREEN then
        s.mem.prev_state
      else State.RED) := by
  have hp := reachable_prev_state s hr
  refine ⟨?_, ?_, ?_, ?_⟩
  · simp [button_handlers, button_0_handler, hb]
  · simp [button_handlers, button_4_handler, hb]
  · simp [button_handlers, button_0_handler, hb]
  · cases hprev : s.mem.prev_state <;>
      simp_all [button_handlers, button_0_handler, button_4_handler]

/-- Witness for C9 amended: blink mode entered from the start by button 4. -/
theorem blink_pause_resume_witness :
    Reachable blink_from_start ∧
    blink_from_start.mem.global_state = State.BLINK ∧
    (button_handlers 0 (button_handlers 0 blink_from_start.mem)).global_state
      = State.RED :=
  ⟨⟨[Event.button 4], by decide⟩, by decide,
    (blink_pause_resume blink_from_start ⟨[Event.button 4], by decide⟩ (by decide)).2.2.1⟩

/-- C10, counterexample: a reachable state where the yellow worker is asleep and
the mode is RED, not its own phase YELLOW; on waking it changes the mode to
GREEN. -/
theorem yellow_wake_overwrites_diverted_mode :
    Reachable yellow_diverted_to_red ∧
    yellow_diverted_to_red.asleep Task.yellow = true ∧
    yellow_diverted_to_red.mem.global_state ≠ Task.yellow.phase ∧
    (Task.yellow.wake yellow_diverted_to_red.mem).global_state = State.GREEN ∧
    (Task.yellow.wake yellow_diverted_to_red.mem).global_state
      ≠ yellow_diverted_to_red.mem.global_state ∧
    (run yellow_diverted_to_red [Event.wake Task.yellow]).map
      (fun s => s.mem.global_state) = some State.GREEN :=
  ⟨⟨[Event.activate Task.red, Event.wake Task.red, Event.activate Task.yellow,
      Event.button 4, Event.button 4, Event.button 0], by decide⟩,
    by decide, by decide, by decide, by decide, by decide⟩

/-- C10, amended: for each phase worker and every mode seen at the end of its
sleep that differs from its own phase, the step after the sleep leaves the
mode unchanged when that mode is PAUSE or BLINK, and sets it to the successor
phase of the worker when it is another cycle phase; saved mode and outputs
are untouched. -/
theorem wake_when_diverted (t : Task) (m : Mem) (ht : t ≠ Task.blink)
    (h : m.global_state ≠ t.phase) :
    (m.global_state = State.PAUSE ∨ m.global_state = State.BLINK →
      (t.wake m).global_state = m.global_state) ∧
    (¬ (m.global_state = State.PAUSE ∨ m.global_state = State.BLINK) →
      some (t.wake m).global_state = t.target) ∧
    (t.wake m).prev_state = m.prev_state ∧ (t.wake m).leds = m.leds := by
  cases t with
  | blink => exact absurd rfl ht
  | red =>
    cases hm : m.global_state <;>
      simp_all [Task.wake, Task.target, Task.phase, red_led_task_wake]
  | yellow =>
    cases hm : m.global_state <;>
      simp_all [Task.wake, Task.target, Task.phase, yellow_led_task_wake]
  | green =>
    cases hm : m.global_state <;>
      simp_all [Task.wake, Task.target, Task.phase, green_led_task_wake]

/-- Witness for C10 amended: the red worker wakes after button 0 paused the
system during its sleep. -/
theorem wake_when_diverted_witness :
    Task.red ≠ Task.blink ∧
    red_paused_asleep.mem.global_state ≠ Task.red.phase ∧
    (Task.red.wake red_paused_asleep.mem).global_state
      = red_paused_asleep.mem.global_state :=
  ⟨by decide, by decide,
    (wake_when_diverted Task.red red_paused_asleep.mem (by decide) (by decide)).1
      (Or.inl rfl)⟩

/-! ## The rule after the sleep -/

/-- C11: for each phase worker and every mode seen at the end of its sleep, the
mode after the step is the successor phase of the worker exactly when the mode
seen is neither PAUSE nor BLINK, and otherwise the mode is unchanged; hence no
worker step, activation or wake-up, of any of the four workers takes the mode
out of PAUSE or BLINK. -/
theorem wake_advance_rule (t : Task) (m : Mem) (ht : t ≠ Task.blink) :
    (some (t.wake m).global_state = t.target ↔
      (m.global_state ≠ State.PAUSE ∧ m.global_state ≠ State.BLINK)) ∧
    (¬ (m.global_state ≠ State.PAUSE ∧ m.global_state ≠ State.BLINK) →
      (t.wake m).global_state = m.global_state) ∧
    (∀ u : Task, m.global_state = State.PAUSE ∨ m.global_state = State.BLINK →
      (u.wake m).global_state = m.global_state ∧
      (u.activate m).global_state = m.global_state) := by
  refine ⟨?_, ?_, ?_⟩
  · cases t with
    | blink => exact absurd rfl ht
    | red =>
      cases hm : m.global_state <;>
        simp [Task.wake, Task.target, red_led_task_wake, hm]
    | yellow =>
      cases hm : m.global_state <;>
        simp [Task.wake, Task.target, yellow_led_task_wake, hm]
    | green =>
      cases hm : m.global_state <;>
        simp [Task.wake, Task.target, green_led_task_wake, hm]
  · intro h
    cases t <;>
      simp [Task.wake, red_led_task_wake, yellow_led_task_wake, green_led_task_wake,
        blink_task_wake, h]
  · intro u h
    constructor
    · rcases h with h | h <;> cases u <;>
        simp [Task.wake, red_led_task_wake, yellow_led_task_wake, green_led_task_wake,
          blink_task_wake, h]
    · cases u <;>
        simp only [Task.activate, red_led_task_activate, yellow_led_task_activate,
          green_led_task_activate, blink_task_activate]
      split <;> rfl

/-- Witness for C11: the red worker wakes in the initial RED state and writes
YELLOW. -/
theorem wake_advance_rule_witness :
    Task.red ≠ Task.blink ∧
    (some (Task.red.wake init_mem).global_state = Task.red.target ↔
      (init_mem.global_state ≠ State.PAUSE ∧ init_mem.global_state ≠ State.BLINK)) :=
  ⟨by decide, (wake_advance_rule Task.red init_mem (by decide)).1⟩

/-! ## The saved mode -/

/-- C12: in every reachable state the saved mode is not PAUSE, and so button 0
pressed in mode PAUSE gives RED, YELLOW or GREEN, never PAUSE or BLINK. -/
theorem resume_lands_in_cycle (s : Sys) (hr : Reachable s) :
    s.mem.prev_state ≠ State.PAUSE ∧
    (s.mem.global_state = State.PAUSE →
      ((button_handlers 0 s.mem).global_state = State.RED ∨
        (button_handlers 0 s.mem).global_state = State.YELLOW ∨
        (button_handlers 0 s.mem).global_state = State.GREEN) ∧
      (button_handlers 0 s.mem).global_state ≠ State.PAUSE ∧
      (button_handlers 0 s.mem).global_state ≠ State.BLINK) := by
  have hp := reachable_prev_state s hr
  refine ⟨hp, ?_⟩
  intro hg
  cases hprev : s.mem.prev_state <;>
    simp_all [button_handlers, button_0_handler]

/-- Witness for C12: the state after one press of button 0 from the start. -/
theorem resume_lands_in_cycle_witness :
    Reachable paused_from_start ∧
    paused_from_start.mem.global_state = State.PAUSE ∧
    paused_from_start.mem.prev_state ≠ State.PAUSE ∧
    (button_handlers 0 paused_from_start.mem).global_state ≠ State.BLINK :=
  ⟨⟨[Event.button 0], by decide⟩, by decide,
    (resume_lands_in_cycle paused_from_start ⟨[Event.button 0], by decide⟩).1,
    ((resume_lands_in_cycle paused_from_start ⟨[Event.button 0], by decide⟩).2
      (by decide)).2.2⟩

/-! ## Worker activation -/

/-- C13: for every prior output state the activation of the red worker leaves
exactly red lit, of the yellow worker exactly red and green lit, of the green
worker exactly green lit, blue off in each case, and none of the three changes
the mode or the saved mode. -/
theorem activate_sets_exact_colour (m : Mem) :
    ((Task.red.activate m).leds = { red := true, green := false, blue := false } ∧
      (Task.red.activate m).global_state = m.global_state ∧
      (Task.red.activate m).prev_state = m.prev_state) ∧
    ((Task.yellow.activate m).leds = { red := true, green := true, blue := false } ∧
      (Task.yellow.activate m).global_state = m.global_state ∧
      (Task.yellow.activate m).prev_state = m.prev_state) ∧
    ((Task.green.activate m).leds = { red := false, green := true, blue := false } ∧
      (Task.green.activate m).global_state = m.global_state ∧
      (Task.green.activate m).prev_state = m.prev_state) := by
  simp [Task.activate, red_led_task_activate, yellow_led_task_activate,
    green_led_task_activate, reset_leds_eq, leds_off, gpio_pin_set_dt]

/-! ## Pause and the lights -/

/-- C15: in every state button 0 leaves the three outputs unchanged, on pause
entry as on resume, so the outputs after pause then resume are the outputs
before. -/
theorem pause_keeps_leds (m : Mem) :
    (button_handlers 0 m).leds = m.leds ∧
    (button_handlers 0 (button_handlers 0 m)).leds = m.leds := by
  have one : ∀ x : Mem, (button_handlers 0 x).leds = x.leds := by
    intro x
    simp only [button_handlers, button_0_handler]
    split <;> rfl
  exact ⟨one m, by rw [one, one]⟩

/-! ## The composite read -/

/-- C18: `get_current_led_state` returns twice the red level plus the green
level; it is LED_RED exactly when red is on and green off, LED_YELLOW exactly
when both are on, LED_GREEN exactly when green is on and red off, and 0 exactly
when both are off. -/
theorem get_current_led_state_encoding (l : Leds) :
    get_current_led_state l = 2 * gpio_pin_get_dt l Pin.red + gpio_pin_get_dt l Pin.green ∧
    (gpio_pin_get_dt l Pin.red = 0 ∨ gpio_pin_get_dt l Pin.red = 1) ∧
    (gpio_pin_get_dt l Pin.green = 0 ∨ gpio_pin_get_dt l Pin.green = 1) ∧
    (get_current_led_state l = LED_RED ↔ (l.red = true ∧ l.green = false)) ∧
    (get_current_led_state l = LED_YELLOW ↔ (l.red = true ∧ l.green = true)) ∧
    (get_current_led_state l = LED_GREEN ↔ (l.green = true ∧ l.red = false)) ∧
    (get_current_led_state l = 0 ↔ (l.red = false ∧ l.green = false)) := by
  obtain ⟨r, g, b⟩ := l
  cases r <;> cases g <;> cases b <;> decide

/-! ## The blue channel -/

theorem button_handlers_blue (i : Fin 5) (m : Mem) (h : m.leds.blue = false) :
    (button_handlers i m).leds.blue = false := by
  obtain ⟨g, p, ⟨r, gr, b⟩⟩ := m
  simp only at h
  subst h
  fin_cases i <;> cases g <;> cases r <;> cases gr <;>
    simp [button_handlers, button_0_handler, button_1_handler, button_2_handler,
      button_3_handler, button_4_handler, get_current_led_state, gpio_pin_get_dt,
      gpio_pin_toggle_dt, reset_leds_eq, leds_off, LED_RED, LED_YELLOW, LED_GREEN]

theorem activate_blue (t : Task) (m : Mem) (h : m.leds.blue = false) :
    (t.activate m).leds.blue = false := by
  cases t <;>
    simp only [Task.activate, red_led_task_activate, yellow_led_task_activate,
      green_led_task_activate, blink_task_activate, reset_leds_eq, leds_off,
      gpio_pin_set_dt]
  split
  · rfl
  · exact h

theorem wake_leds (t : Task) (m : Mem) : (t.wake m).leds = m.leds := by
  cases t <;>
    simp only [Task.wake, red_led_task_wake, yellow_led_task_wake, green_led_task_wake,
      blink_task_wake] <;>
    first
      | rfl
      | (split <;> rfl)

theorem step_blue (s s1 : Sys) (e : Event) (h : step s e = some s1)
    (hb : s.mem.leds.blue = false) : s1.mem.leds.blue = false := by
  cases e with
  | button i =>
    simp only [step, Option.some.injEq] at h
    subst h
    exact button_handlers_blue i s.mem hb
  | activate t =>
    simp only [step] at h
    split at h
    · simp only [Option.some.injEq] at h
      subst h
      rw [setAsleep_mem]
      exact activate_blue t s.mem hb
    · simp at h
  | wake t =>
    simp only [step] at h
    split at h
    · simp only [Option.some.injEq] at h
      subst h
      rw [setAsleep_mem]
      simp only [wake_leds]
      exact hb
    · simp at h

theorem run_blue (es : List Event) (s s1 : Sys) (h : run s es = some s1)
    (hb : s.mem.leds.blue = false) : s1.mem.leds.blue = false := by
  induction es generalizing s with
  | nil =>
    simp only [run, Option.some.injEq] at h
    subst h
    exact hb
  | cons e es ih =>
    simp only [run] at h
    cases hs : step s e with
    | none => simp [hs] at h
    | some s2 =>
      rw [hs] at h
      exact ih s2 h (step_blue s s2 e hs hb)

/-- C17: in every state reachable from the initial all-off state by handler and
worker steps the blue output is off, so two reachable states with the same
value of `get_current_led_state` have the same three outputs. -/
theorem blue_never_lit (s s2 : Sys) (hr : Reachable s) (hr2 : Reachable s2) :
    s.mem.leds.blue = false ∧
    (get_current_led_state s.mem.leds = get_current_led_state s2.mem.leds →
      s.mem.leds = s2.mem.leds) := by
  obtain ⟨es, hes⟩ := hr
  obtain ⟨es2, hes2⟩ := hr2
  have hb := run_blue es init_sys s hes (by decide)
  have hb2 := run_blue es2 init_sys s2 hes2 (by decide)
  refine ⟨hb, ?_⟩
  generalize s.mem.leds = l at hb
  generalize s2.mem.leds = l2 at hb2
  obtain ⟨r, g, b⟩ := l
  obtain ⟨r2, g2, b2⟩ := l2
  simp only at hb hb2
  subst hb
  subst hb2
  cases r <;> cases g <;> cases r2 <;> cases g2 <;> decide

/-- Witness for C17: the state with the red worker asleep and the initial
state. -/
theorem blue_never_lit_witness :
    Reachable red_active ∧ Reachable init_sys ∧ red_active.mem.leds.blue = false :=
  ⟨⟨[Event.activate Task.red], by decide⟩, ⟨[], by decide⟩,
    (blue_never_lit red_active init_sys ⟨[Event.activate Task.red], by decide⟩
      ⟨[], by decide⟩).1⟩

/-! ## The blink waveform -/

theorem time_unit_blink_state (m : Mem) (h : m.global_state = State.BLINK) :
    (time_unit m).global_state = State.BLINK := by
  simp only [time_unit, h, blink_task_wake, blink_task_activate]
  split <;> rfl

theorem after_units_blink_state (n : Nat) (m : Mem) (h : m.global_state = State.BLINK) :
    (after_units n m).global_state = State.BLINK := by
  induction n generalizing m with
  | zero => simpa [after_units] using h
  | succ k ih =>
    simp only [after_units]
    exact ih _ (time_unit_blink_state m h)

theorem after_units_succ (k : Nat) (m : Mem) :
    after_units (k + 1) m = time_unit (after_units k m) := by
  rw [after_units_add k 1]
  rfl

theorem blink_step_blue_off (m : Mem) (h : m.global_state = State.BLINK)
    (hb : m.leds.blue = false) :
    (time_unit m).leds = (if m.leds = Colour.yellow.lit then leds_off else Colour.yellow.lit) ∧
    (time_unit m).leds.blue = false := by
  obtain ⟨g, p, ⟨r, gr, b⟩⟩ := m
  simp only at h hb
  subst h
  subst hb
  cases r <;> cases gr <;>
    simp [time_unit, blink_task_wake, blink_task_activate, get_current_led_state,
      gpio_pin_get_dt, gpio_pin_set_dt, reset_leds_eq, leds_off, LED_YELLOW, Colour.lit]

theorem blink_period_blue_off (m : Mem) (h : m.global_state = State.BLINK)
    (hb : m.leds.blue = false) :
    time_unit (time_unit (time_unit m)) = time_unit m := by
  obtain ⟨g, p, ⟨r, gr, b⟩⟩ := m
  simp only at h hb
  subst h
  subst hb
  cases r <;> cases gr <;>
    simp [time_unit, blink_task_wake, blink_task_activate, get_current_led_state,
      gpio_pin_get_dt, gpio_pin_set_dt, reset_leds_eq, leds_off, LED_YELLOW]

theorem after_units_blink_blue (n : Nat) (m : Mem) (h : m.global_state = State.BLINK)
    (hb : m.leds.blue = false) : (after_units n m).leds.blue = false := by
  induction n generalizing m with
  | zero => simpa [after_units] using hb
  | succ k ih =>
    simp only [after_units]
    exact ih _ (time_unit_blink_state m h) (blink_step_blue_off m h hb).2

/-- C14: for every reachable state in mode BLINK, with no input events, each
blink-worker step turns the yellow-lit outputs (red and green on) into all-off
and any other outputs into yellow-lit; after the first step the outputs
alternate yellow-lit, all-off with period two: the state after n+2 steps is the
state after n steps for every n ≥ 1; the mode stays BLINK. -/
theorem blink_waveform (s : Sys) (hr : Reachable s)
    (h : s.mem.global_state = State.BLINK) :
    (∀ n : Nat, (after_units (n + 1) s.mem).leds =
      (if (after_units n s.mem).leds = Colour.yellow.lit then leds_off
      else Colour.yellow.lit)) ∧
    (∀ n : Nat, 1 ≤ n →
      ((after_units n s.mem).leds = Colour.yellow.lit ∧
        (after_units (n + 1) s.mem).leds = leds_off) ∨
      ((after_units n s.mem).leds = leds_off ∧
        (after_units (n + 1) s.mem).leds = Colour.yellow.lit)) ∧
    (∀ n : Nat, 1 ≤ n → after_units (n + 2) s.mem = after_units n s.mem) ∧
    (∀ n : Nat, (after_units n s.mem).global_state = State.BLINK) := by
  obtain ⟨es, hes⟩ := hr
  have hb : s.mem.leds.blue = false := run_blue es init_sys s hes (by decide)
  have hmode := fun n => after_units_blink_state n s.mem h
  have hblue := fun n => after_units_blink_blue n s.mem h hb
  have each : ∀ n : Nat, (after_units (n + 1) s.mem).leds =
      (if (after_units n s.mem).leds = Colour.yellow.lit then leds_off
      else Colour.yellow.lit) := by
    intro n
    rw [after_units_succ]
    exact (blink_step_blue_off _ (hmode n) (hblue n)).1
  refine ⟨each, ?_, ?_, hmode⟩
  · intro n hn
    obtain ⟨k, rfl⟩ : ∃ k, n = k + 1 := ⟨n - 1, by omega⟩
    have e1 := each k
    have e2 := each (k + 1)
    by_cases hy : (after_units k s.mem).leds = Colour.yellow.lit
    · rw [if_pos hy] at e1
      have hne : (after_units (k + 1) s.mem).leds ≠ Colour.yellow.lit := by
        rw [e1]
        decide
      rw [if_neg hne] at e2
      exact Or.inr ⟨e1, e2⟩
    · rw [if_neg hy] at e1
      rw [if_pos e1] at e2
      exact Or.inl ⟨e1, e2⟩
  · intro n hn
    obtain ⟨k, rfl⟩ : ∃ k, n = k + 1 := ⟨n - 1, by omega⟩
    have e := blink_period_blue_off (after_units k s.mem) (hmode k) (hblue k)
    simpa only [after_units_succ] using e

/-- Witness for C14: blink mode entered by button 4 while the red worker
sleeps with red lit. -/
theorem blink_waveform_witness :
    Reachable blink_entered_red_lit ∧
    blink_entered_red_lit.mem.global_state = State.BLINK ∧
    (∀ n : Nat, 1 ≤ n →
      after_units (n + 2) blink_entered_red_lit.mem = after_units n blink_entered_red_lit.mem) :=
  ⟨⟨[Event.activate Task.red, Event.button 4], by decide⟩, by decide,
    (blink_waveform blink_entered_red_lit
      ⟨[Event.activate Task.red, Event.button 4], by decide⟩ (by decide)).2.2.1⟩

/-! ## Forced colours in reachable paused states -/

theorem force_colour_blue_off (c : Colour) (m : Mem) (h : m.global_state = State.PAUSE)
    (hb : m.leds.blue = false) :
    (c.handler m).leds = (if m.leds = c.lit then leds_off else c.lit) ∧
    (m.leds = c.lit ↔ get_current_led_state m.leds = c.code) := by
  obtain ⟨g, p, ⟨r, gr, b⟩⟩ := m
  simp only at h hb
  subst h
  subst hb
  cases c <;> cases r <;> cases gr <;>
    simp [Colour.handler, button_handlers, button_1_handler, button_2_handler,
      button_3_handler, get_current_led_state, gpio_pin_get_dt, gpio_pin_toggle_dt,
      reset_leds_eq, leds_off, Colour.code, Colour.lit, LED_RED, LED_YELLOW, LED_GREEN]

theorem force_colour_mode (c : Colour) (m : Mem) :
    (c.handler m).global_state = m.global_state ∧ (c.handler m).prev_state = m.prev_state := by
  cases c <;>
    simp only [Colour.handler, button_handlers, button_1_handler, button_2_handler,
      button_3_handler] <;>
    (split <;> exact ⟨rfl, rfl⟩)

/-- C6: for each colour c (red-only, yellow, green-only) and every reachable
state in mode PAUSE, the handler of c (button 1, 2 or 3) gives all outputs off
when exactly c was lit, and exactly c lit with every other channel off when
the outputs were anything else; exactly c lit is what the comparison of
`get_current_led_state` with the constant of c tests; mode and saved mode are
unchanged.  In particular from paused with all outputs off, force-yellow
lights yellow and a second force-yellow turns all outputs off. -/
theorem force_colour_toggle (c : Colour) (s : Sys) (hr : Reachable s)
    (h : s.mem.global_state = State.PAUSE) :
    (c.handler s.mem).leds = (if s.mem.leds = c.lit then leds_off else c.lit) ∧
    (s.mem.leds = c.lit ↔ get_current_led_state s.mem.leds = c.code) ∧
    (c.handler s.mem).global_state = State.PAUSE ∧
    (c.handler s.mem).prev_state = s.mem.prev_state ∧
    (s.mem.leds = leds_off →
      (Colour.yellow.handler s.mem).leds = Colour.yellow.lit ∧
      (Colour.yellow.handler (Colour.yellow.handler s.mem)).leds = leds_off) := by
  obtain ⟨es, hes⟩ := hr
  have hb : s.mem.leds.blue = false := run_blue es init_sys s hes (by decide)
  have hc := force_colour_blue_off c s.mem h hb
  refine ⟨hc.1, hc.2, ?_, (force_colour_mode c s.mem).2, ?_⟩
  · rw [(force_colour_mode c s.mem).1]
    exact h
  · intro hoff
    have h1 := (force_colour_blue_off Colour.yellow s.mem h hb).1
    have hne : s.mem.leds ≠ Colour.yellow.lit := by
      rw [hoff]
      decide
    rw [if_neg hne] at h1
    have hm1 : (Colour.yellow.handler s.mem).global_state = State.PAUSE := by
      rw [(force_colour_mode Colour.yellow s.mem).1]
      exact h
    have hb1 : (Colour.yellow.handler s.mem).leds.blue = false := by
      rw [h1]
      rfl
    have h2 := (force_colour_blue_off Colour.yellow (Colour.yellow.handler s.mem) hm1 hb1).1
    rw [if_pos h1] at h2
    exact ⟨h1, h2⟩

/-- Witness for C6: the red worker has lit red and button 0 has paused; force-red
then turns all outputs off. -/
theorem force_colour_toggle_witness :
    Reachable red_paused_asleep ∧
    red_paused_asleep.mem.global_state = State.PAUSE ∧
    (Colour.red.handler red_paused_asleep.mem).leds =
      (if red_paused_asleep.mem.leds = Colour.red.lit then leds_off else Colour.red.lit) :=
  ⟨⟨[Event.activate Task.red, Event.button 0], by decide⟩, by decide,
    (force_colour_toggle Colour.red red_paused_asleep
      ⟨[Event.activate Task.red, Event.button 0], by decide⟩ (by decide)).1⟩

/-! ## Workers inside their active body -/

theorem activate_global_state (t : Task) (m : Mem) :
    (t.activate m).global_state = m.global_state := by
  cases t <;>
    simp only [Task.activate, red_led_task_activate, yellow_led_task_activate,
      green_led_task_activate, blink_task_activate]
  split <;> rfl

theorem phase_injective (t1 t2 : Task) (h : t1.phase = t2.phase) : t1 = t2 := by
  cases t1 <;> cases t2 <;> simp [Task.phase] at h <;> rfl

theorem asleep_setAsleep_same (s : Sys) (t : Task) (b : Bool) :
    (s.setAsleep t b).asleep t = b := by
  cases t <;> rfl

theorem asleep_setAsleep_other (s : Sys) (t u : Task) (b : Bool) (h : u ≠ t) :
    (s.setAsleep t b).asleep u = s.asleep u := by
  cases t <;> cases u <;> first | rfl | exact absurd rfl h

theorem asleep_with_mem (s : Sys) (m : Mem) (u : Task) :
    ({ s with mem := m } : Sys).asleep u = s.asleep u := by
  cases u <;> rfl

theorem activeCount_le_one_of_only (s : Sys) (t : Task)
    (h : ∀ u : Task, u ≠ t → s.asleep u = false) : s.activeCount ≤ 1 := by
  have hr := h Task.red
  have hy := h Task.yellow
  have hg := h Task.green
  have hb := h Task.blink
  obtain ⟨m, r, y, g, b⟩ := s
  cases t <;> simp only [Sys.asleep, ne_eq, not_true_eq_false, reduceCtorEq, not_false_eq_true,
    forall_const, false_implies] at hr hy hg hb <;>
    cases r <;> cases y <;> cases g <;> cases b <;>
    simp [Sys.activeCount, Sys.asleep] at hr hy hg hb ⊢

theorem asleep_unique (s : Sys) (hc : s.activeCount ≤ 1) (t u : Task)
    (ht : s.asleep t = true) (hu : s.asleep u = true) : t = u := by
  obtain ⟨m, r, y, g, b⟩ := s
  cases r <;> cases y <;> cases g <;> cases b <;>
    simp [Sys.activeCount, Sys.asleep] at hc <;>
    cases t <;> cases u <;> simp [Sys.asleep] at ht hu ⊢

theorem activeCount_with_mem (s : Sys) (m : Mem) :
    ({ s with mem := m } : Sys).activeCount = s.activeCount := by
  cases s
  rfl

theorem activate_prev_state (t : Task) (m : Mem) :
    (t.activate m).prev_state = m.prev_state := by
  cases t <;>
    simp only [Task.activate, red_led_task_activate, yellow_led_task_activate,
      green_led_task_activate, blink_task_activate]
  split <;> rfl

theorem wake_prev_state (t : Task) (m : Mem) : (t.wake m).prev_state = m.prev_state := by
  cases t <;>
    simp only [Task.wake, red_led_task_wake, yellow_led_task_wake, green_led_task_wake,
      blink_task_wake] <;>
    first
      | rfl
      | (split <;> rfl)

theorem wake_not_blink (t : Task) (m : Mem) (h : m.global_state ≠ State.BLINK) :
    (t.wake m).global_state ≠ State.BLINK := by
  cases t <;>
    simp only [Task.wake, red_led_task_wake, yellow_led_task_wake, green_led_task_wake,
      blink_task_wake] <;>
    first
      | exact h
      | (split <;> first | exact h | simp)

theorem phase_not_pause (t : Task) : t.phase ≠ State.PAUSE := by
  cases t <;> simp [Task.phase]

theorem button_0_keeps_owner (m : Mem)
    (hm : m.global_state ≠ State.BLINK) (hp : m.prev_state ≠ State.BLINK) :
    (button_0_handler m).global_state ≠ State.BLINK ∧
    (button_0_handler m).prev_state ≠ State.BLINK ∧
    ∀ t : Task,
      (m.global_state = t.phase ∨ (m.global_state = State.PAUSE ∧ m.prev_state = t.phase)) →
      ((button_0_handler m).global_state = t.phase ∨
        ((button_0_handler m).global_state = State.PAUSE ∧
          (button_0_handler m).prev_state = t.phase)) := by
  by_cases hg : m.global_state = State.PAUSE
  · have e1 : (button_0_handler m).global_state = m.prev_state := by
      simp [button_0_handler, hg, hp]
    have e2 : (button_0_handler m).prev_state = m.prev_state := by
      simp [button_0_handler, hg]
    rw [e1, e2]
    refine ⟨hp, hp, ?_⟩
    intro t ht
    rcases ht with ht | ht
    · rw [hg] at ht
      exact absurd ht.symm (phase_not_pause t)
    · exact Or.inl ht.2
  · have e1 : (button_0_handler m).global_state = State.PAUSE := by
      simp [button_0_handler, hg]
    have e2 : (button_0_handler m).prev_state = m.global_state := by
      simp [button_0_handler, hg]
    rw [e1, e2]
    refine ⟨by decide, hm, ?_⟩
    intro t ht
    rcases ht with ht | ht
    · exact Or.inr ⟨rfl, ht⟩
    · exact absurd ht.1 hg

theorem colour_keeps_owner (c : Colour) (m : Mem)
    (hm : m.global_state ≠ State.BLINK) (hp : m.prev_state ≠ State.BLINK) :
    (c.handler m).global_state ≠ State.BLINK ∧ (c.handler m).prev_state ≠ State.BLINK ∧
    ∀ t : Task,
      (m.global_state = t.phase ∨ (m.global_state = State.PAUSE ∧ m.prev_state = t.phase)) →
      ((c.handler m).global_state = t.phase ∨
        ((c.handler m).global_state = State.PAUSE ∧ (c.handler m).prev_state = t.phase)) := by
  rw [(force_colour_mode c m).1, (force_colour_mode c m).2]
  exact ⟨hm, hp, fun _ ht => ht⟩

/-- How a button other than button 4 acts on the mode and the saved mode when
neither is BLINK: neither becomes BLINK, and a sleeping worker whose phase is
the mode, or the saved mode under PAUSE, stays in that relation. -/
theorem button_keeps_owner (i : Fin 5) (hi : i ≠ 4) (m : Mem)
    (hm : m.global_state ≠ State.BLINK) (hp : m.prev_state ≠ State.BLINK) :
    (button_handlers i m).global_state ≠ State.BLINK ∧
    (button_handlers i m).prev_state ≠ State.BLINK ∧
    ∀ t : Task,
      (m.global_state = t.phase ∨ (m.global_state = State.PAUSE ∧ m.prev_state = t.phase)) →
      ((button_handlers i m).global_state = t.phase ∨
        ((button_handlers i m).global_state = State.PAUSE ∧
          (button_handlers i m).prev_state = t.phase)) := by
  fin_cases i
  · exact button_0_keeps_owner m hm hp
  · exact colour_keeps_owner Colour.red m hm hp
  · exact colour_keeps_owner Colour.yellow m hm hp
  · exact colour_keeps_owner Colour.green m hm hp
  · exact absurd rfl hi

theorem step_single (s s1 : Sys) (e : Event) (hw : e ≠ Event.button 4)
    (h : step s e = some s1)
    (hi : s.activeCount ≤ 1 ∧ s.mem.global_state ≠ State.BLINK ∧
      s.mem.prev_state ≠ State.BLINK ∧
      ∀ t : Task, s.asleep t = true →
        (s.mem.global_state = t.phase ∨
          (s.mem.global_state = State.PAUSE ∧ s.mem.prev_state = t.phase))) :
    s1.activeCount ≤ 1 ∧ s1.mem.global_state ≠ State.BLINK ∧
      s1.mem.prev_state ≠ State.BLINK ∧
      ∀ t : Task, s1.asleep t = true →
        (s1.mem.global_state = t.phase ∨
          (s1.mem.global_state = State.PAUSE ∧ s1.mem.prev_state = t.phase)) := by
  obtain ⟨hc, hnb, hpb, hp⟩ := hi
  cases e with
  | button i =>
    simp only [step, Option.some.injEq] at h
    subst h
    have hne : i ≠ 4 := fun e4 => hw (by rw [e4])
    have hk := button_keeps_owner i hne s.mem hnb hpb
    refine ⟨?_, hk.1, hk.2.1, ?_⟩
    · rw [activeCount_with_mem]
      exact hc
    · intro t ht
      rw [asleep_with_mem] at ht
      exact hk.2.2 t (hp t ht)
  | activate t =>
    simp only [step] at h
    split at h
    · rename_i hg
      obtain ⟨ha, hm⟩ := hg
      simp only [Option.some.injEq] at h
      subst h
      have others : ∀ u : Task, s.asleep u = false := by
        intro u
        cases hu : s.asleep u with
        | false => rfl
        | true =>
          rcases hp u hu with e1 | e1
          · rw [hm] at e1
            have e2 := phase_injective t u e1
            subst e2
            rw [ha] at hu
            exact absurd hu (by decide)
          · rw [hm] at e1
            exact absurd e1.1 (phase_not_pause t)
      have rest : ∀ u : Task, u ≠ t →
          (({ s with mem := t.activate s.mem } : Sys).setAsleep t true).asleep u = false := by
        intro u hne
        rw [asleep_setAsleep_other _ t u true hne, asleep_with_mem]
        exact others u
      refine ⟨activeCount_le_one_of_only _ t rest, ?_, ?_, ?_⟩
      · rw [setAsleep_mem]
        simp only [activate_global_state]
        exact hnb
      · rw [setAsleep_mem]
        simp only [activate_prev_state]
        exact hpb
      · intro u hu
        by_cases hne : u = t
        · subst hne
          rw [setAsleep_mem]
          simp only [activate_global_state]
          exact Or.inl hm
        · rw [rest u hne] at hu
          exact absurd hu (by decide)
    · simp at h
  | wake t =>
    simp only [step] at h
    split at h
    · rename_i ha
      simp only [Option.some.injEq] at h
      subst h
      have rest : ∀ u : Task,
          (({ s with mem := t.wake s.mem } : Sys).setAsleep t false).asleep u = false := by
        intro u
        by_cases hne : u = t
        · subst hne
          exact asleep_setAsleep_same _ u false
        · rw [asleep_setAsleep_other _ t u false hne, asleep_with_mem]
          cases hu : s.asleep u with
          | false => rfl
          | true => exact absurd (asleep_unique s hc u t hu ha) hne
      refine ⟨activeCount_le_one_of_only _ t (fun u _ => rest u), ?_, ?_, ?_⟩
      · rw [setAsleep_mem]
        exact wake_not_blink t s.mem hnb
      · rw [setAsleep_mem]
        simp only [wake_prev_state]
        exact hpb
      · intro u hu
        rw [rest u] at hu
        exact absurd hu (by decide)
    · simp at h

theorem run_single (es : List Event) (s s1 : Sys)
    (hw : ∀ e ∈ es, e ≠ Event.button 4) (h : run s es = some s1)
    (hi : s.activeCount ≤ 1 ∧ s.mem.global_state ≠ State.BLINK ∧
      s.mem.prev_state ≠ State.BLINK ∧
      ∀ t : Task, s.asleep t = true →
        (s.mem.global_state = t.phase ∨
          (s.mem.global_state = State.PAUSE ∧ s.mem.prev_state = t.phase))) :
    s1.activeCount ≤ 1 ∧ s1.mem.global_state ≠ State.BLINK ∧
      s1.mem.prev_state ≠ State.BLINK ∧
      ∀ t : Task, s1.asleep t = true →
        (s1.mem.global_state = t.phase ∨
          (s1.mem.global_state = State.PAUSE ∧ s1.mem.prev_state = t.phase)) := by
  induction es generalizing s with
  | nil =>
    simp only [run, Option.some.injEq] at h
    subst h
    exact hi
  | cons e es ih =>
    simp only [run] at h
    cases hs : step s e with
    | none => simp [hs] at h
    | some s2 =>
      rw [hs] at h
      exact ih s2 (fun x hx => hw x (List.mem_cons_of_mem e hx)) h
        (step_single s s2 e (hw e (List.mem_cons_self e es)) hs hi)

/-- C16, counterexample: a reachable state with the red and the yellow worker
both inside their active body; both then wake and write the mode, the yellow
worker GREEN and the red worker YELLOW. -/
theorem two_workers_active :
    Reachable red_yellow_active ∧
    red_yellow_active.asleep Task.red = true ∧
    red_yellow_active.asleep Task.yellow = true ∧
    red_yellow_active.activeCount = 2 ∧
    (Task.yellow.wake red_yellow_active.mem).global_state = State.GREEN ∧
    (Task.red.wake (Task.yellow.wake red_yellow_active.mem)).global_state = State.YELLOW ∧
    (run red_yellow_active [Event.wake Task.yellow, Event.wake Task.red]).map
      (fun s => s.mem.global_state) = some State.YELLOW :=
  ⟨⟨[Event.activate Task.red, Event.wake Task.red, Event.activate Task.yellow,
      Event.button 4, Event.button 4, Event.button 0, Event.activate Task.red], by decide⟩,
    by decide, by decide, by decide, by decide, by decide, by decide⟩

/-- C16, amended: in every state at most one worker has its activation guard
true, and every state reached from the initial state by steps other than
button 4, that is by the handlers of buttons 0 to 3 and the activations and
wake-ups of the four workers, has at most one worker inside its active body;
the phase of that worker is the current mode, or the saved mode while the mode
is PAUSE, and the mode is never BLINK. -/
theorem single_active_worker (s : Sys) (es : List Event)
    (hw : ∀ e ∈ es, e ≠ Event.button 4) (h : run init_sys es = some s) :
    (∀ (x : Sys) (t u : Task),
      x.mem.global_state = t.phase → x.mem.global_state = u.phase → t = u) ∧
    s.activeCount ≤ 1 ∧
    s.mem.global_state ≠ State.BLINK ∧
    (∀ t : Task, s.asleep t = true →
      (s.mem.global_state = t.phase ∨
        (s.mem.global_state = State.PAUSE ∧ s.mem.prev_state = t.phase))) := by
  have inv := run_single es init_sys s hw h ⟨by decide, by decide, by decide, by
    intro t ht
    cases t <;> simp [init_sys, Sys.asleep] at ht⟩
  refine ⟨?_, inv.1, inv.2.1, inv.2.2.2⟩
  intro x t u ht hu
  exact phase_injective t u (ht.symm.trans hu)

/-- Witness for C16 amended: the red worker sleeps through a pause and a resume,
completes, and the yellow worker goes to sleep. -/
theorem single_active_worker_witness :
    run init_sys [Event.activate Task.red, Event.button 0, Event.button 0,
      Event.wake Task.red, Event.activate Task.yellow] = some yellow_active ∧
    yellow_active.activeCount ≤ 1 :=
  ⟨by decide,
    (single_active_worker yellow_active
      [Event.activate Task.red, Event.button 0, Event.button 0, Event.wake Task.red,
        Event.activate Task.yellow]
      (by decide) (by decide)).2.1⟩

end TrafficLight
